import Mathlib

/-!
# Verification of the rkmedia MPP final encoder configuration layer

Shallow embedding of `src/rkmpp/mpp_final_encoder.cc`: the bitrate derivation
algorithm (`CalcMppBpsWithMax`), the two codec configuration strategies
(`MPPMJPEGConfig`, `MPPCommonConfig`) and the session controller dispatch
(`MPPFinalEncoder::CheckConfigChange`).

Modelling conventions:
* C `int` values become `Int`.  All divisions in the embedded code act on
  nonnegative dividends and positive divisors, where C truncating division
  agrees with Lean's `Int` division.
* Hardware interactions (`mpp_enc_cfg_set_s32/u32`, `EncodeControl`,
  `RoiUpdateRegions`) are recorded as an event trace.  Their return codes are
  only ever tested for being nonzero by the source, so an environment
  `env : Nat → Bool` decides, per hardware call index, whether that call
  reports failure (`true` = nonzero return code).  `ret |= call(...)`
  accumulation therefore becomes boolean disjunction.
* Structures declared in headers outside this file's scope (`MediaConfig`,
  the change-kind bitmask, macro `VALUE_SCOPE_CHECK`, string table of
  `GetMPPRCMode`, record sizes) are modelled from the spec; each such
  definition says so in its doc comment.
-/

namespace RkMedia

/-! ## Data model -/

inductive PixelFormat where
  | nv12
  | yuyv422
  | uyvy422
  | unknown
deriving DecidableEq

/-- Modelled from the spec: the pixel-format enumeration table is an external
collaborator ("pixel-format enumeration tables" are out of scope).  The mapping
returns `-1` for an unconvertible format and distinct nonnegative codes for the
others; the two packed YUV422 formats are the ones whose stride doubles. -/
def ConvertToMppPixFmt : PixelFormat → Int
  | .nv12 => 0
  | .yuyv422 => 8
  | .uyvy422 => 9
  | .unknown => -1

/-- MPP code for the packed YUYV format (external header constant). -/
def MPP_FMT_YUV422_YUYV : Int := 8

/-- MPP code for the packed UYVY format (external header constant). -/
def MPP_FMT_YUV422_UYVY : Int := 9

/-- Rate-control modes of the external MPP library header. -/
inductive MppEncRcMode where
  | vbr
  | cbr
  | fixqp
  | butt
deriving DecidableEq

/-- Numeric codes of the external enum, used when the mode is submitted as an
integer parameter value. -/
def MppEncRcMode.toC : MppEncRcMode → Int
  | .vbr => 0
  | .cbr => 1
  | .fixqp => 2
  | .butt => 3

/-- Coding types relevant to this translation unit. -/
inductive MppCodingType where
  | avc
  | hevc
  | mjpeg
  | unused
deriving DecidableEq

/-- Modelled from the spec: `GetMPPRCMode` (declared outside this file) resolves
a rate-control mode from a mode name, yielding the `butt` sentinel when the
name is unrecognized ("resolves rate-control mode from a mode name, failing
with InvalidRcMode if unrecognized"; supported names per the glossary are the
constant, variable and fixed-QP policies). -/
def GetMPPRCMode : String → MppEncRcMode
  | "cbr" => .cbr
  | "vbr" => .vbr
  | "fixqp" => .fixqp
  | _ => .butt

def KEY_CBR : String := "cbr"

def KEY_VBR : String := "vbr"

structure ImageInfo where
  pix_fmt : PixelFormat
  width : Int
  height : Int
  vir_width : Int
  vir_height : Int
deriving DecidableEq

structure ImageConfig where
  image_info : ImageInfo
  qp_init : Int
  codec_type : Int
deriving DecidableEq

structure VideoConfig where
  image_cfg : ImageConfig
  qp_min : Int
  qp_max : Int
  qp_step : Int
  max_i_qp : Int
  min_i_qp : Int
  frame_rate : Int
  gop_size : Int
  bit_rate : Int
  rc_mode : String
  profile : Int
  level : Int
  trans_8x8 : Bool
deriving DecidableEq

/-- Discriminant of the cached configuration (`Type` in `media_config.h`). -/
inductive ConfigType where
  | none
  | image
  | video
deriving DecidableEq

/-- Modelled from the spec: `MediaConfig` is "a tagged union selecting either an
image configuration or a video configuration, plus a discriminant recording
which is active".  `ImageConfig` is the leading member embedded in
`VideoConfig`, so in the union the image view aliases `vid_cfg.image_cfg`; we
store the video view and derive the image view from it. -/
structure MediaConfig where
  vid_cfg : VideoConfig
  type : ConfigType
deriving DecidableEq

/-- The aliased image view of the union. -/
def MediaConfig.img_cfg (c : MediaConfig) : ImageConfig := c.vid_cfg.image_cfg

/-- Modelled from the spec: macro `VALUE_SCOPE_CHECK(v, min, max)` (declared
outside this file) makes the enclosing function return `false` when `v` lies
outside the inclusive range `[min, max]`; this predicate is the failing
condition. -/
def VALUE_SCOPE_FAILS (v lo hi : Int) : Prop := v < lo ∨ hi < v

instance (v lo hi : Int) : Decidable (VALUE_SCOPE_FAILS v lo hi) := by
  unfold VALUE_SCOPE_FAILS
  infer_instance

def VALUE_MIN (a b : Int) : Int := if a < b then a else b

/-! ## Hardware channel model -/

/-- Control command identifiers used by this translation unit. -/
inductive MppCtrlCmd where
  | setOutputTimeout
  | setInputTimeout
  | setCfg
  | setIdrFrame
  | setHeaderMode
deriving DecidableEq

/-- One observable interaction with the hardware control channel. -/
inductive HwEvent where
  | setS32 (key : String) (value : Int)
  | setU32 (key : String) (value : Int)
  | control (cmd : MppCtrlCmd)
  | roiUpdate (count : Int)
deriving DecidableEq

/-- Hardware-call bookkeeping: number of calls made so far and the ordered
trace of events. -/
structure HwState where
  n : Nat
  trace : List HwEvent
deriving DecidableEq

def HwState.start : HwState := ⟨0, []⟩

/-- The environment decides, per call index, whether that hardware call reports
a nonzero (failing) status. -/
def HwEnv : Type := Nat → Bool

/-- Perform one hardware call: record the event, consume one call index, report
whether the call returned nonzero. -/
def hwCall (env : HwEnv) (s : HwState) (e : HwEvent) : Bool × HwState :=
  (env s.n, ⟨s.n + 1, s.trace ++ [e]⟩)

def setS32 (env : HwEnv) (s : HwState) (key : String) (v : Int) : Bool × HwState :=
  hwCall env s (.setS32 key v)

def setU32 (env : HwEnv) (s : HwState) (key : String) (v : Int) : Bool × HwState :=
  hwCall env s (.setU32 key v)

def encodeControl (env : HwEnv) (s : HwState) (cmd : MppCtrlCmd) : Bool × HwState :=
  hwCall env s (.control cmd)

/-- A maximal uninterrupted run of `ret |= mpp_enc_cfg_set_s32(...)` calls: all
events are emitted unconditionally and the return codes are OR-accumulated
(only the accumulated value is ever tested by the source). -/
def setMany (env : HwEnv) (s : HwState) : List (String × Int) → Bool × HwState
  | [] => (false, s)
  | kv :: rest =>
    let r := setS32 env s kv.1 kv.2
    let rs := setMany env r.2 rest
    (r.1 || rs.1, rs.2)

/-! ## Bitrate derivation (`CalcMppBpsWithMax`, lines 163-194) -/

def MPPCommonConfig.kMPPMinBps : Int := 2 * 1000

def MPPCommonConfig.kMPPMaxBps : Int := 98 * 1000 * 1000

/-- The `switch (rc_mode)` of `CalcMppBpsWithMax`: per-mode raw derivation of
`(bps_target, bps_min)` before the post-adjustment; `none` is the `return -1`
of the `default` branch. -/
def calcBpsSwitch (rc_mode : MppEncRcMode) (bps_max : Int) : Option (Int × Int) :=
  match rc_mode with
  | .cbr => some (bps_max * 16 / 17, bps_max * 15 / 17)
  | .vbr => some (bps_max * 2 / 3, bps_max * 1 / 3)
  | _ => none

/-- Range check plus raw switch: the value of `CalcMppBpsWithMax` before the
clamp-and-recenter post-adjustment. -/
def calcBpsPre (rc_mode : MppEncRcMode) (bps_max : Int) : Option (Int × Int) :=
  if bps_max > MPPCommonConfig.kMPPMaxBps ∨ bps_max < MPPCommonConfig.kMPPMinBps then
    none
  else
    calcBpsSwitch rc_mode bps_max

/-- `CalcMppBpsWithMax` (lines 163-194).  Returns `(bps_max, bps_min,
bps_target)` on success (`return 0` with the three reference parameters
updated), `none` on `return -1`. -/
def CalcMppBpsWithMax (rc_mode : MppEncRcMode) (bps_max : Int) :
    Option (Int × Int × Int) :=
  match calcBpsPre rc_mode bps_max with
  | none => none
  | some (bps_target, bps_min) =>
    let bps_min := if bps_min < MPPCommonConfig.kMPPMinBps then
        MPPCommonConfig.kMPPMinBps else bps_min
    let bps_target := if bps_target < bps_min then
        (bps_min + bps_max) / 2 else bps_target
    some (bps_max, bps_min, bps_target)

/-! ## Change requests -/

namespace VideoEncoder

/-- Modelled from the spec: the change-kind bitmask constants are declared in
`encoder.h` outside this file's scope; the spec describes them as "a bitmask of
change kinds".  They are modelled as distinct single bits; the exact bit
positions are immaterial to every property proved here. -/
def kQPChange : Nat := 1 <<< 0

def kFrameRateChange : Nat := 1 <<< 1

def kBitRateChange : Nat := 1 <<< 2

def kForceIdrFrame : Nat := 1 <<< 3

def kOSDDataChange : Nat := 1 <<< 4

def kOSDPltChange : Nat := 1 <<< 5

def kROICfgChange : Nat := 1 <<< 6

def kSplitChange : Nat := 1 <<< 7

def kRcModeChange : Nat := 1 <<< 8

def kRcQualityChange : Nat := 1 <<< 9

def kGopChange : Nat := 1 <<< 10

def kEnableStatistics : Nat := 1 <<< 11

end VideoEncoder

/-- Runtime quantization record (`VideoEncoderQp`, external header). -/
structure VideoEncoderQp where
  qp_init : Int
  qp_step : Int
  qp_min : Int
  qp_max : Int
  min_i_qp : Int
  max_i_qp : Int
deriving DecidableEq

/-- Modelled from the spec: byte size of `VideoEncoderQp` (six 4-byte fields,
declared outside this file's scope). -/
def sizeof_VideoEncoderQp : Nat := 24

/-- Modelled from the spec: byte size of one region-of-interest record
(`EncROIRegion`, declared outside this file's scope).  The control flow only
compares the payload size against it and divides by it; any positive value
exhibits the same behavior. -/
def sizeof_EncROIRegion : Nat := 12

/-- Byte size of a C `int`. -/
def sizeof_c_int : Nat := 4

/-- The opaque change payload (`ParameterBuffer`).  The source reinterprets the
same underlying memory differently per change kind; each field below is one of
those views: `value` is `GetValue()`, `size` is `GetSize()`, `bytes` views
`GetPtr()` as a `uint8_t` array, `str` as a mode-name string, `qp` as a
`VideoEncoderQp` record, and `split_mode`/`split_arg` as the two leading
unsigned 32-bit words. -/
structure ParameterBuffer where
  value : Int
  size : Nat
  bytes : Nat → Nat
  str : String
  qp : VideoEncoderQp
  split_mode : Int
  split_arg : Int

/-! ## Still-image strategy (`MPPMJPEGConfig`) -/

/-- Lines 85-86 and 251-252: the horizontal stride doubles for the packed
YUV422 pixel formats. -/
def strideFor (pic_type line_size : Int) : Int :=
  if pic_type = MPP_FMT_YUV422_YUYV ∨ pic_type = MPP_FMT_YUV422_UYVY then
    line_size * 2
  else line_size

/-- The cached-configuration mutation of lines 82-83: the incoming image info
is stored and the discriminant set to `Image`. -/
def mjpegCommitInfo (encConfig : MediaConfig) (image_info : ImageInfo) : MediaConfig :=
  { encConfig with
    vid_cfg := { encConfig.vid_cfg with
      image_cfg := { encConfig.vid_cfg.image_cfg with image_info := image_info } },
    type := .image }

/-- `MPPMJPEGConfig::InitConfig` (lines 50-111).  `encCfgOk` models whether the
`enc_cfg` handle was successfully created at construction; `encConfig` is the
encoder session's cached `GetConfig()` before the call.  Returns the boolean
result, the cached configuration after the call, and the hardware state. -/
def MPPMJPEGConfig.InitConfig (env : HwEnv) (encCfgOk : Bool)
    (encConfig : MediaConfig) (cfg : MediaConfig) :
    Bool × MediaConfig × HwState :=
  let img_cfg := cfg.img_cfg
  let image_info := cfg.img_cfg.image_info
  let pic_type := ConvertToMppPixFmt image_info.pix_fmt
  let line_size := image_info.vir_width
  let s0 := HwState.start
  if encCfgOk = false then (false, encConfig, s0)
  else if VALUE_SCOPE_FAILS img_cfg.qp_init 1 10 then (false, encConfig, s0)
  else if pic_type = -1 then (false, encConfig, s0)
  else
    let a1 := encodeControl env s0 .setOutputTimeout
    if a1.1 then (false, encConfig, a1.2)
    else
      let a2 := encodeControl env a1.2 .setInputTimeout
      if a2.1 then (false, encConfig, a2.2)
      else
        -- lines 82-83: the cached configuration is written here, before the
        -- parameter submissions below
        let encConfig2 := mjpegCommitInfo encConfig image_info
        let b := setMany env a2.2
          [("prep:width", image_info.width),
           ("prep:height", image_info.height),
           ("prep:hor_stride", strideFor pic_type line_size),
           ("prep:ver_stride", image_info.vir_height),
           ("prep:format", pic_type),
           ("jpeg:quant", img_cfg.qp_init)]
        if b.1 then (false, encConfig2, b.2)
        else
          let a3 := encodeControl env b.2 .setCfg
          if a3.1 then (false, encConfig2, a3.2)
          else (true, encConfig2, a3.2)

/-- `MPPMJPEGConfig::CheckConfigChange` (lines 113-145). -/
def MPPMJPEGConfig.CheckConfigChange (env : HwEnv) (encCfgOk : Bool)
    (encConfig : MediaConfig) (change : Nat) (val : ParameterBuffer) :
    Bool × MediaConfig × HwState :=
  let s0 := HwState.start
  if encCfgOk = false then (false, encConfig, s0)
  else if change &&& VideoEncoder.kQPChange ≠ 0 then
    let quant := val.value
    if VALUE_SCOPE_FAILS quant 1 10 then (false, encConfig, s0)
    else
      let b1 := setS32 env s0 "jpeg:quant" quant
      if b1.1 then (false, encConfig, b1.2)
      else
        let a1 := encodeControl env b1.2 .setCfg
        if a1.1 then (false, encConfig, a1.2)
        else
          (true,
           { encConfig with
             vid_cfg := { encConfig.vid_cfg with
               image_cfg := { encConfig.vid_cfg.image_cfg with qp_init := quant } } },
           a1.2)
  else (false, encConfig, s0)

/-! ## Inter-frame video strategy (`MPPCommonConfig`) -/

/-- Numeric codes of the external `MppCodingType` enum, used when the coding
type is submitted as an integer parameter value (values immaterial here). -/
def MppCodingType.toC : MppCodingType → Int
  | .avc => 7
  | .mjpeg => 8
  | .hevc => 16777220
  | .unused => 0

/-- Lines 341-385: the shared tail of `MPPCommonConfig::InitConfig` after the
codec-specific block: test the accumulated submission return code, apply the
configuration, set the header-emission mode, and only then commit the resolved
`VideoConfig` and the `Video` discriminant into the cached configuration. -/
def MPPCommonConfig.initFinish (env : HwEnv) (ret : Bool) (s : HwState)
    (encConfig : MediaConfig) (vconfig : VideoConfig) : Bool × MediaConfig × HwState :=
  if ret then (false, encConfig, s)
  else
    let a3 := encodeControl env s .setCfg
    if a3.1 then (false, encConfig, a3.2)
    else
      let a4 := encodeControl env a3.2 .setHeaderMode
      if a4.1 then (false, encConfig, a4.2)
      else (true, { encConfig with vid_cfg := vconfig, type := .video }, a4.2)

/-- Lines 254-339 of `MPPCommonConfig::InitConfig`: the hardware-submission
phase, entered once every parameter check has passed and the bitrate tiers have
been derived.  `vconfig` is the working copy of the video configuration,
`image_info` the (union-aliased) image info, `pic_type` the converted pixel
format, `line_size2` the possibly doubled stride. -/
def MPPCommonConfig.initSubmit (code_type : MppCodingType) (env : HwEnv)
    (encConfig : MediaConfig) (vconfig : VideoConfig) (img_cfg : ImageConfig)
    (image_info : ImageInfo) (pic_type : Int) (line_size2 : Int)
    (rc_mode : MppEncRcMode) (bps_max bps_min bps_target : Int)
    (fps_in_num : Int) (gop : Int) : Bool × MediaConfig × HwState :=
  let a1 := encodeControl env HwState.start .setOutputTimeout
  if a1.1 then (false, encConfig, a1.2)
  else
    let a2 := encodeControl env a1.2 .setInputTimeout
    if a2.1 then (false, encConfig, a2.2)
    else
      let b := setMany env a2.2
        [("prep:width", image_info.width),
         ("prep:height", image_info.height),
         ("prep:hor_stride", line_size2),
         ("prep:ver_stride", image_info.vir_height),
         ("prep:format", pic_type),
         ("prep:range", 1),
         ("rc:mode", rc_mode.toC),
         ("rc:bps_min", bps_min),
         ("rc:bps_max", bps_max),
         ("rc:bps_target", bps_target),
         ("rc:fps_in_flex", 0),
         ("rc:fps_in_num", fps_in_num),
         ("rc:fps_in_denorm", 1),
         ("rc:fps_out_flex", 0),
         ("rc:fps_out_num", fps_in_num),
         ("rc:fps_out_denorm", 1),
         ("rc:gop", gop),
         ("codec:type", code_type.toC)]
      -- line 288: vconfig.frame_rate = fps_in_num (committed only at the end)
      let vconfig2 := { vconfig with frame_rate := fps_in_num }
      match code_type with
      | .avc =>
        let vconfig3 := if vconfig2.profile ≠ 66 ∧ vconfig2.profile ≠ 77 then
            { vconfig2 with profile := 100 } else vconfig2
        let hb := setMany env b.2
          [("h264:profile", vconfig3.profile),
           ("h264:level", vconfig3.level),
           ("h264:cabac_en", if vconfig3.profile = 100 then 1 else 0),
           ("h264:cabac_idc", 0),
           ("h264:trans8x8", if vconfig3.trans_8x8 ∧ vconfig3.profile = 100 then 1 else 0),
           ("h264:qp_init", if rc_mode = .fixqp then -1 else img_cfg.qp_init),
           ("h264:qp_max", vconfig3.qp_max),
           ("h264:qp_min", vconfig3.qp_min),
           ("h264:qp_step", vconfig3.qp_step),
           ("h264:qp_max_i", vconfig3.max_i_qp),
           ("h264:qp_min_i", vconfig3.min_i_qp)]
        MPPCommonConfig.initFinish env (b.1 || hb.1) hb.2 encConfig vconfig3
      | .hevc =>
        let hb := setMany env b.2
          [("h265:qp_init", if rc_mode = .fixqp then -1 else img_cfg.qp_init),
           ("h265:qp_max", vconfig2.qp_max),
           ("h265:qp_min", vconfig2.qp_min),
           ("h265:qp_step", vconfig2.qp_step),
           ("h265:qp_max_i", vconfig2.max_i_qp),
           ("h265:qp_min_i", vconfig2.min_i_qp)]
        MPPCommonConfig.initFinish env (b.1 || hb.1) hb.2 encConfig vconfig2
      | _ => (false, encConfig, b.2)

/-- `MPPCommonConfig::InitConfig` (lines 196-386).  `code_type` is the strategy
construction parameter; `encCfgOk` models whether the `enc_cfg` handle exists;
`encConfig` is the session's cached `GetConfig()` before the call. -/
def MPPCommonConfig.InitConfig (code_type : MppCodingType) (env : HwEnv)
    (encCfgOk : Bool) (encConfig : MediaConfig) (cfg : MediaConfig) :
    Bool × MediaConfig × HwState :=
  let vconfig := cfg.vid_cfg
  let img_cfg := vconfig.image_cfg
  let image_info := cfg.img_cfg.image_info
  let pic_type := ConvertToMppPixFmt image_info.pix_fmt
  let line_size := image_info.vir_width
  let s0 := HwState.start
  if encCfgOk = false then (false, encConfig, s0)
  else if VALUE_SCOPE_FAILS vconfig.frame_rate 1 60 then (false, encConfig, s0)
  else if VALUE_SCOPE_FAILS vconfig.gop_size 0 0x7FFFFFFF then (false, encConfig, s0)
  else if VALUE_SCOPE_FAILS vconfig.qp_max 8 51 then (false, encConfig, s0)
  else if VALUE_SCOPE_FAILS vconfig.qp_min 1 (VALUE_MIN vconfig.qp_max 48) then
    (false, encConfig, s0)
  else if VALUE_SCOPE_FAILS img_cfg.qp_init vconfig.qp_min vconfig.qp_max then
    (false, encConfig, s0)
  else if VALUE_SCOPE_FAILS vconfig.qp_step 0 (vconfig.qp_max - vconfig.qp_min) then
    (false, encConfig, s0)
  else if VALUE_SCOPE_FAILS img_cfg.image_info.vir_width 1 8192 then (false, encConfig, s0)
  else if VALUE_SCOPE_FAILS img_cfg.image_info.vir_height 1 8192 then (false, encConfig, s0)
  else if VALUE_SCOPE_FAILS img_cfg.image_info.width 1 img_cfg.image_info.vir_width then
    (false, encConfig, s0)
  else if VALUE_SCOPE_FAILS img_cfg.image_info.height 1 img_cfg.image_info.vir_height then
    (false, encConfig, s0)
  else if (0 < vconfig.max_i_qp ∨ 0 < vconfig.min_i_qp)
      ∧ (VALUE_SCOPE_FAILS vconfig.max_i_qp 8 51
        ∨ VALUE_SCOPE_FAILS vconfig.min_i_qp 1 (VALUE_MIN vconfig.max_i_qp 48)) then
    (false, encConfig, s0)
  else if pic_type = -1 then (false, encConfig, s0)
  else
    let rc_mode := GetMPPRCMode vconfig.rc_mode
    if rc_mode = .butt then (false, encConfig, s0)
    else
      -- fps_in_num = std::max(1, std::min(frame_rate, (1 << 16) - 1))
      let fps_in_num := max 1 (min vconfig.frame_rate 65535)
      match CalcMppBpsWithMax rc_mode vconfig.bit_rate with
      | none => (false, encConfig, s0)
      | some (bps_max, bps_min, bps_target) =>
        -- lines 251-252: stride doubling for packed YUV422 formats
        MPPCommonConfig.initSubmit code_type env encConfig vconfig img_cfg
          image_info pic_type (strideFor pic_type line_size) rc_mode
          bps_max bps_min bps_target fps_in_num vconfig.gop_size

/-- Lines 398-436: the frame-rate change branch of
`MPPCommonConfig::CheckConfigChange`. -/
def MPPCommonConfig.applyFrameRateChange (env : HwEnv) (encConfig : MediaConfig)
    (val : ParameterBuffer) : Bool × MediaConfig × HwState :=
  let vconfig := encConfig.vid_cfg
  let s0 := HwState.start
  if val.size < 4 then (false, encConfig, s0)
  else
    let in_fps_num := val.bytes 0
    let in_fps_den := val.bytes 1
    let out_fps_num := val.bytes 2
    let out_fps_den := val.bytes 3
    if out_fps_num = 0 ∨ out_fps_den = 0 ∨ 60 < out_fps_num then
      (false, encConfig, s0)
    else
      let step1 : Bool × HwState :=
        if in_fps_num ≠ 0 ∧ in_fps_den ≠ 0 then
          -- line 418 of the source passes in_fps_num, not in_fps_den, as the
          -- value for the input denominator key
          setMany env s0
            [("rc:fps_in_num", (in_fps_num : Int)),
             ("rc:fps_in_denorm", (in_fps_num : Int))]
        else (false, s0)
      let r := setMany env step1.2
        [("rc:fps_out_num", (out_fps_num : Int)),
         ("rc:fps_out_denorm", (out_fps_den : Int))]
      if step1.1 || r.1 then (false, encConfig, r.2)
      else
        let a1 := encodeControl env r.2 .setCfg
        if a1.1 then (false, encConfig, a1.2)
        else
          (true,
           { encConfig with vid_cfg := { vconfig with frame_rate := (out_fps_num : Int) } },
           a1.2)

/-- Lines 437-463: the bitrate change branch. -/
def MPPCommonConfig.applyBitRateChange (env : HwEnv) (encConfig : MediaConfig)
    (val : ParameterBuffer) : Bool × MediaConfig × HwState :=
  let vconfig := encConfig.vid_cfg
  let s0 := HwState.start
  let rc_mode := GetMPPRCMode vconfig.rc_mode
  if rc_mode = .butt then (false, encConfig, s0)
  else
    match CalcMppBpsWithMax rc_mode val.value with
    | none => (false, encConfig, s0)
    | some (bps_max, bps_min, bps_target) =>
      let r := setMany env s0
        [("rc:bps_min", bps_min), ("rc:bps_max", bps_max),
         ("rc:bps_target", bps_target)]
      if r.1 then (false, encConfig, r.2)
      else
        let a1 := encodeControl env r.2 .setCfg
        if a1.1 then (false, encConfig, a1.2)
        else
          (true, { encConfig with vid_cfg := { vconfig with bit_rate := bps_max } }, a1.2)

/-- Lines 464-497: the rate-control-mode change branch. -/
def MPPCommonConfig.applyRcModeChange (env : HwEnv) (encConfig : MediaConfig)
    (val : ParameterBuffer) : Bool × MediaConfig × HwState :=
  let vconfig := encConfig.vid_cfg
  let s0 := HwState.start
  let rc_mode := GetMPPRCMode val.str
  if rc_mode = .butt then (false, encConfig, s0)
  else
    match CalcMppBpsWithMax rc_mode vconfig.bit_rate with
    | none => (false, encConfig, s0)
    | some (bps_max, bps_min, bps_target) =>
      let r := setMany env s0
        [("rc:mode", rc_mode.toC), ("rc:bps_min", bps_min),
         ("rc:bps_max", bps_max), ("rc:bps_target", bps_target)]
      if r.1 then (false, encConfig, r.2)
      else
        let a1 := encodeControl env r.2 .setCfg
        if a1.1 then (false, encConfig, a1.2)
        else
          let label := if rc_mode = .vbr then KEY_VBR else KEY_CBR
          (true, { encConfig with vid_cfg := { vconfig with rc_mode := label } }, a1.2)

/-- Lines 500-517: the GOP-size change branch. -/
def MPPCommonConfig.applyGopChange (env : HwEnv) (encConfig : MediaConfig)
    (val : ParameterBuffer) : Bool × MediaConfig × HwState :=
  let vconfig := encConfig.vid_cfg
  let s0 := HwState.start
  if val.value < 0 then (false, encConfig, s0)
  else
    let r1 := setS32 env s0 "rc:gop" val.value
    if r1.1 then (false, encConfig, r1.2)
    else
      let a1 := encodeControl env r1.2 .setCfg
      if a1.1 then (false, encConfig, a1.2)
      else
        (true, { encConfig with vid_cfg := { vconfig with gop_size := val.value } }, a1.2)

/-- Lines 518-557: the runtime quantization change branch. -/
def MPPCommonConfig.applyQpChange (code_type : MppCodingType) (env : HwEnv)
    (encConfig : MediaConfig) (val : ParameterBuffer) : Bool × MediaConfig × HwState :=
  let vconfig := encConfig.vid_cfg
  let s0 := HwState.start
  let qps := val.qp
  if val.size < sizeof_VideoEncoderQp then (false, encConfig, s0)
  else
    let step1 : Bool × HwState :=
      if code_type = .avc then
        setMany env s0
          [("h264:qp_init", qps.qp_init), ("h264:qp_max", qps.qp_max),
           ("h264:qp_min", qps.qp_min), ("h264:qp_step", qps.qp_step),
           ("h264:qp_max_i", qps.max_i_qp), ("h264:qp_min_i", qps.min_i_qp)]
      else if code_type = .hevc then
        setMany env s0
          [("h265:qp_init", qps.qp_init), ("h265:qp_max", qps.qp_max),
           ("h265:qp_min", qps.qp_min), ("h265:qp_step", qps.qp_step),
           ("h265:qp_max_i", qps.max_i_qp), ("h265:qp_min_i", qps.min_i_qp)]
      else (false, s0)
    if step1.1 then (false, encConfig, step1.2)
    else
      let a1 := encodeControl env step1.2 .setCfg
      if a1.1 then (false, encConfig, a1.2)
      else
        (true,
         { encConfig with vid_cfg := { vconfig with
             image_cfg := { vconfig.image_cfg with qp_init := qps.qp_init },
             qp_min := qps.qp_min,
             qp_max := qps.qp_max,
             qp_step := qps.qp_step,
             max_i_qp := qps.max_i_qp,
             min_i_qp := qps.min_i_qp } },
         a1.2)

/-- Lines 558-565: the region-of-interest change branch.  The return value of
`RoiUpdateRegions` is ignored by the source. -/
def MPPCommonConfig.applyRoiChange (env : HwEnv) (encConfig : MediaConfig)
    (val : ParameterBuffer) : Bool × MediaConfig × HwState :=
  let s0 := HwState.start
  if val.size ≠ 0 ∧ val.size < sizeof_EncROIRegion then (false, encConfig, s0)
  else
    let u1 := hwCall env s0 (.roiUpdate ((val.size / sizeof_EncROIRegion : Nat) : Int))
    (true, encConfig, u1.2)

/-- Lines 566-571: the forced-keyframe branch. -/
def MPPCommonConfig.applyForceIdr (env : HwEnv) (encConfig : MediaConfig) :
    Bool × MediaConfig × HwState :=
  let a1 := encodeControl env HwState.start .setIdrFrame
  if a1.1 then (false, encConfig, a1.2)
  else (true, encConfig, a1.2)

/-- Lines 572-592: the bitstream-split branch. -/
def MPPCommonConfig.applySplitChange (env : HwEnv) (encConfig : MediaConfig)
    (val : ParameterBuffer) : Bool × MediaConfig × HwState :=
  let s0 := HwState.start
  if val.size < 2 * sizeof_c_int then (false, encConfig, s0)
  else
    let r1 := setU32 env s0 "split:mode" val.split_mode
    let r2 := setU32 env r1.2 "split:arg" val.split_arg
    if r1.1 || r2.1 then (false, encConfig, r2.2)
    else
      let a1 := encodeControl env r2.2 .setCfg
      if a1.1 then (false, encConfig, a1.2)
      else (true, encConfig, a1.2)

/-- `MPPCommonConfig::CheckConfigChange` (lines 388-626): the else-if dispatch
over the change-kind bitmask.  The translation unit is modelled as built
without `MPP_SUPPORT_HW_OSD`, so the two OSD branches guarded by that
preprocessor flag are absent from the chain. -/
def MPPCommonConfig.CheckConfigChange (code_type : MppCodingType) (env : HwEnv)
    (encCfgOk : Bool) (encConfig : MediaConfig) (change : Nat)
    (val : ParameterBuffer) : Bool × MediaConfig × HwState :=
  if encCfgOk = false then (false, encConfig, HwState.start)
  else if change &&& VideoEncoder.kFrameRateChange ≠ 0 then
    MPPCommonConfig.applyFrameRateChange env encConfig val
  else if change &&& VideoEncoder.kBitRateChange ≠ 0 then
    MPPCommonConfig.applyBitRateChange env encConfig val
  else if change &&& VideoEncoder.kRcModeChange ≠ 0 then
    MPPCommonConfig.applyRcModeChange env encConfig val
  else if change &&& VideoEncoder.kRcQualityChange ≠ 0 then
    -- lines 498-499, deprecated: logs a warning and falls to `return true`
    (true, encConfig, HwState.start)
  else if change &&& VideoEncoder.kGopChange ≠ 0 then
    MPPCommonConfig.applyGopChange env encConfig val
  else if change &&& VideoEncoder.kQPChange ≠ 0 then
    MPPCommonConfig.applyQpChange code_type env encConfig val
  else if change &&& VideoEncoder.kROICfgChange ≠ 0 then
    MPPCommonConfig.applyRoiChange env encConfig val
  else if change &&& VideoEncoder.kForceIdrFrame ≠ 0 then
    MPPCommonConfig.applyForceIdr env encConfig
  else if change &&& VideoEncoder.kSplitChange ≠ 0 then
    MPPCommonConfig.applySplitChange env encConfig val
  else (false, encConfig, HwState.start)

/-! ## Session controller dispatch -/

/-- `MPPFinalEncoder::CheckConfigChange` (lines 679-693).  The `strategy`
parameter models `mpp_config->CheckConfigChange` (only its boolean result is
routed to the caller); `hasConfig` models `mpp_config != nullptr`; `statistics`
is the process-wide statistics flag before the call.  Returns the boolean
result paired with the statistics flag after the call. -/
def MPPFinalEncoder.CheckConfigChange (strategy : Nat → ParameterBuffer → Bool)
    (statistics : Bool) (hasConfig : Bool) (change : Nat) (val : ParameterBuffer) :
    Bool × Bool :=
  if change &&& VideoEncoder.kEnableStatistics ≠ 0 then
    (true, decide (val.value ≠ 0))
  else if hasConfig = false then (false, statistics)
  else (strategy change val, statistics)

/-! ## Concrete sample inputs for witnesses and counterexamples -/

/-- An all-success hardware environment: every call returns status 0. -/
def envOk : HwEnv := fun _ => false

/-- A hardware environment in which exactly the `k`-th call returns a nonzero
status. -/
def envFailAt (k : Nat) : HwEnv := fun n => decide (n = k)

/-- A well-formed 640x480 NV12 image. -/
def sampleImageInfo : ImageInfo := ⟨.nv12, 640, 480, 640, 480⟩

/-- A fully valid video configuration except that `qp_min = 1`, which lies
below 8.  Field order: image_cfg, qp_min, qp_max, qp_step, max_i_qp, min_i_qp,
frame_rate, gop_size, bit_rate, rc_mode, profile, level, trans_8x8. -/
def lowQpMinVideoConfig : VideoConfig :=
  ⟨⟨sampleImageInfo, 26, 0⟩, 1, 48, 2, 0, 0, 30, 30, 2000000, "cbr", 100, 40, false⟩

def lowQpMinCfg : MediaConfig := ⟨lowQpMinVideoConfig, .video⟩

/-- A fully valid video configuration with in-range quantization bounds. -/
def validVideoConfig : VideoConfig :=
  ⟨⟨sampleImageInfo, 26, 0⟩, 8, 48, 2, 0, 0, 30, 30, 2000000, "cbr", 100, 40, false⟩

def validVideoCfg : MediaConfig := ⟨validVideoConfig, .video⟩

/-- A valid still-image configuration (`qp_init = 5`). -/
def validJpegCfg : MediaConfig :=
  ⟨⟨⟨sampleImageInfo, 5, 0⟩, 0, 0, 0, 0, 0, 0, 0, 0, "", 0, 0, false⟩, .image⟩

/-- An inert cached configuration, distinct from every sample above. -/
def blankMediaConfig : MediaConfig :=
  ⟨⟨⟨⟨.nv12, 0, 0, 0, 0⟩, 0, 0⟩, 0, 0, 0, 0, 0, 0, 0, 0, "", 0, 0, false⟩, .none⟩

/-- A frame-rate change payload: in-pair 30/2, out-pair 25/1. -/
def fpsBuf : ParameterBuffer :=
  ⟨0, 4, fun n => [30, 2, 25, 1].getD n 0, "", ⟨0, 0, 0, 0, 0, 0⟩, 0, 0⟩

/-- A region-of-interest payload of 13 bytes: nonzero, at least one record
(12 bytes) but not a whole multiple of the record size. -/
def roiBuf13 : ParameterBuffer :=
  ⟨0, 13, fun _ => 0, "", ⟨0, 0, 0, 0, 0, 0⟩, 0, 0⟩

/-- A quantization payload carrying value 7. -/
def qpBuf : ParameterBuffer :=
  ⟨7, 0, fun _ => 0, "", ⟨0, 0, 0, 0, 0, 0⟩, 0, 0⟩

/-- A strategy stub whose `CheckConfigChange` always succeeds. -/
def strategyTrue : Nat → ParameterBuffer → Bool := fun _ _ => true

/-- A strategy stub whose `CheckConfigChange` always fails. -/
def strategyFalse : Nat → ParameterBuffer → Bool := fun _ _ => false

/-! ## Theorems -/

/-- C1: For every ceiling `c` in `[2000, 98000000]` and every rate-control mode
in {constant (CBR), variable (VBR)}, the bitrate derivation function succeeds
and, after the clamp-and-recenter post-adjustment, its results satisfy
`min ≤ target ≤ max = c` and `min ≥ 2000`. -/
theorem calcMppBps_band_sound (c : Int) (rc : MppEncRcMode)
    (hlo : 2000 ≤ c) (hhi : c ≤ 98000000)
    (hrc : rc = .cbr ∨ rc = .vbr) :
    ∃ bmin btarget, CalcMppBpsWithMax rc c = some (c, bmin, btarget) ∧
      bmin ≤ btarget ∧ btarget ≤ c ∧ 2000 ≤ bmin := by
  rcases hrc with h | h <;> subst h <;>
    unfold CalcMppBpsWithMax calcBpsPre calcBpsSwitch MPPCommonConfig.kMPPMaxBps
      MPPCommonConfig.kMPPMinBps <;>
    rw [if_neg (by omega)] <;>
    dsimp only <;>
    exact ⟨_, _, rfl, by split_ifs <;> omega, by split_ifs <;> omega,
      by split_ifs <;> omega⟩

/-- C1 witness at the concrete ceiling 5,000,000 under CBR. -/
theorem calcMppBps_band_sound_witness :
    ∃ bmin btarget,
      CalcMppBpsWithMax .cbr 5000000 = some (5000000, bmin, btarget) ∧
      bmin ≤ btarget ∧ btarget ≤ 5000000 ∧ 2000 ≤ bmin :=
  calcMppBps_band_sound 5000000 .cbr (by decide) (by decide) (Or.inl rfl)

/-- C2: Before the post-adjustment, the bitrate derivation computes
`target = c·16/17`, `min = c·15/17` under CBR and `target = c·2/3`,
`min = c·1/3` under VBR (integer arithmetic); it fails for every ceiling
outside `[2000, 98000000]` whatever the mode, and fails for every mode other
than CBR and VBR whatever the ceiling. -/
theorem calcMppBps_pre_values_and_failures (c : Int) :
    (2000 ≤ c → c ≤ 98000000 →
      calcBpsPre .cbr c = some (c * 16 / 17, c * 15 / 17) ∧
      calcBpsPre .vbr c = some (c * 2 / 3, c * 1 / 3)) ∧
    ((c < 2000 ∨ 98000000 < c) → ∀ rc, CalcMppBpsWithMax rc c = none) ∧
    (∀ rc, rc ≠ MppEncRcMode.cbr → rc ≠ MppEncRcMode.vbr →
      CalcMppBpsWithMax rc c = none) := by
  refine ⟨fun hlo hhi => ?_, fun hbad rc => ?_, fun rc h1 h2 => ?_⟩
  · constructor <;>
      unfold calcBpsPre calcBpsSwitch MPPCommonConfig.kMPPMaxBps
        MPPCommonConfig.kMPPMinBps <;>
      rw [if_neg (by omega)]
  · unfold CalcMppBpsWithMax calcBpsPre MPPCommonConfig.kMPPMaxBps
      MPPCommonConfig.kMPPMinBps
    rw [if_pos (by omega)]
  · cases rc with
    | cbr => exact absurd rfl h1
    | vbr => exact absurd rfl h2
    | fixqp => simp [CalcMppBpsWithMax, calcBpsPre, calcBpsSwitch]
    | butt => simp [CalcMppBpsWithMax, calcBpsPre, calcBpsSwitch]

/-- C2 witness: concrete pre-adjustment values at ceiling 5,000,000. -/
theorem calcMppBps_pre_values_and_failures_witness :
    calcBpsPre .cbr 5000000 = some (5000000 * 16 / 17, 5000000 * 15 / 17) ∧
    calcBpsPre .vbr 5000000 = some (5000000 * 2 / 3, 5000000 * 1 / 3) :=
  (calcMppBps_pre_values_and_failures 5000000).1 (by decide) (by decide)

/-- C3 counterexample: a fully valid configuration whose `qp_min = 1` lies
outside `[8,51]` is nevertheless accepted by the inter-frame `InitConfig`,
refuting "no configuration with qp_min outside [8,51] is accepted". -/
theorem commonInit_accepts_qp_min_below_8 :
    (MPPCommonConfig.InitConfig .avc envOk true blankMediaConfig lowQpMinCfg).1 = true ∧
    lowQpMinCfg.vid_cfg.qp_min < 8 := by
  constructor
  · decide
  · decide

/-- C3 (amended): the inter-frame `InitConfig` succeeds only if
`qp_max ∈ [8,51]` and `qp_min ∈ [1, min(qp_max, 48)]` — hence
`qp_min ≤ qp_max`, and in particular `qp_min = 50, qp_max = 40` is rejected;
but `qp_min` is not required to be at least 8. -/
theorem commonInit_qp_bounds (ct : MppCodingType) (env : HwEnv) (ok : Bool)
    (enc cfg : MediaConfig)
    (h : (MPPCommonConfig.InitConfig ct env ok enc cfg).1 = true) :
    8 ≤ cfg.vid_cfg.qp_max ∧ cfg.vid_cfg.qp_max ≤ 51 ∧
    1 ≤ cfg.vid_cfg.qp_min ∧ cfg.vid_cfg.qp_min ≤ cfg.vid_cfg.qp_max ∧
    cfg.vid_cfg.qp_min ≤ 48 := by
  unfold MPPCommonConfig.InitConfig at h
  simp only [] at h
  by_cases h1 : ok = false
  · rw [if_pos h1] at h
    exact absurd h (by simp)
  · rw [if_neg h1] at h
    by_cases h2 : VALUE_SCOPE_FAILS cfg.vid_cfg.frame_rate 1 60
    · rw [if_pos h2] at h
      exact absurd h (by simp)
    · rw [if_neg h2] at h
      by_cases h3 : VALUE_SCOPE_FAILS cfg.vid_cfg.gop_size 0 0x7FFFFFFF
      · rw [if_pos h3] at h
        exact absurd h (by simp)
      · rw [if_neg h3] at h
        by_cases h4 : VALUE_SCOPE_FAILS cfg.vid_cfg.qp_max 8 51
        · rw [if_pos h4] at h
          exact absurd h (by simp)
        · rw [if_neg h4] at h
          by_cases h5 : VALUE_SCOPE_FAILS cfg.vid_cfg.qp_min 1
              (VALUE_MIN cfg.vid_cfg.qp_max 48)
          · rw [if_pos h5] at h
            exact absurd h (by simp)
          · unfold VALUE_SCOPE_FAILS at h4 h5
            unfold VALUE_MIN at h5
            rw [not_or] at h4 h5
            split_ifs at h5 <;> omega

/-- C3 witness: the amended bound extraction applied to a concrete accepted
configuration. -/
theorem commonInit_qp_bounds_witness :
    8 ≤ validVideoCfg.vid_cfg.qp_max ∧ validVideoCfg.vid_cfg.qp_max ≤ 51 ∧
    1 ≤ validVideoCfg.vid_cfg.qp_min ∧
    validVideoCfg.vid_cfg.qp_min ≤ validVideoCfg.vid_cfg.qp_max ∧
    validVideoCfg.vid_cfg.qp_min ≤ 48 :=
  commonInit_qp_bounds .avc envOk true blankMediaConfig validVideoCfg (by decide)

/-- Helper: `initFinish` leaves the cached configuration untouched on failure
and commits the resolved video configuration exactly on success. -/
theorem MPPCommonConfig.initFinish_cache (env : HwEnv) (ret : Bool) (s : HwState)
    (enc : MediaConfig) (v : VideoConfig) :
    ((MPPCommonConfig.initFinish env ret s enc v).1 = false →
      (MPPCommonConfig.initFinish env ret s enc v).2.1 = enc) ∧
    ((MPPCommonConfig.initFinish env ret s enc v).1 = true →
      (MPPCommonConfig.initFinish env ret s enc v).2.1 =
        { enc with vid_cfg := v, type := ConfigType.video }) := by
  unfold MPPCommonConfig.initFinish
  simp only []
  by_cases h1 : ret = true
  · rw [if_pos h1]
    simp
  · rw [if_neg h1]
    by_cases h2 : (encodeControl env s .setCfg).1 = true
    · rw [if_pos h2]
      simp
    · rw [if_neg h2]
      by_cases h3 : (encodeControl env (encodeControl env s .setCfg).2 .setHeaderMode).1 = true
      · rw [if_pos h3]
        simp
      · rw [if_neg h3]
        simp

/-- Helper: the submission phase of the inter-frame `InitConfig` leaves the
cached configuration untouched on failure and sets the `Video` discriminant
exactly on success. -/
theorem MPPCommonConfig.initSubmit_cache (ct : MppCodingType) (env : HwEnv)
    (enc : MediaConfig) (v : VideoConfig) (ic : ImageConfig) (ii : ImageInfo)
    (pt ls : Int) (rc : MppEncRcMode) (bmax bmin btg fin gop : Int) :
    ((MPPCommonConfig.initSubmit ct env enc v ic ii pt ls rc bmax bmin btg fin gop).1 = false →
      (MPPCommonConfig.initSubmit ct env enc v ic ii pt ls rc bmax bmin btg fin gop).2.1 = enc) ∧
    ((MPPCommonConfig.initSubmit ct env enc v ic ii pt ls rc bmax bmin btg fin gop).1 = true →
      (MPPCommonConfig.initSubmit ct env enc v ic ii pt ls rc bmax bmin btg fin gop).2.1.type =
        ConfigType.video) := by
  unfold MPPCommonConfig.initSubmit
  simp only []
  by_cases h1 : (encodeControl env HwState.start .setOutputTimeout).1 = true
  · rw [if_pos h1]
    simp
  · rw [if_neg h1]
    by_cases h2 : (encodeControl env (encodeControl env HwState.start .setOutputTimeout).2
        .setInputTimeout).1 = true
    · rw [if_pos h2]
      simp
    · rw [if_neg h2]
      cases ct <;> simp only []
      · refine ⟨(MPPCommonConfig.initFinish_cache _ _ _ _ _).1, fun ht => ?_⟩
        rw [(MPPCommonConfig.initFinish_cache _ _ _ _ _).2 ht]
      · refine ⟨(MPPCommonConfig.initFinish_cache _ _ _ _ _).1, fun ht => ?_⟩
        rw [(MPPCommonConfig.initFinish_cache _ _ _ _ _).2 ht]
      · simp
      · simp

/-- Helper: cache discipline of the inter-frame `InitConfig`: any failure
leaves the cached configuration unchanged; success sets its discriminant. -/
theorem MPPCommonConfig.commonInitCfg_cache (ct : MppCodingType) (env : HwEnv)
    (ok : Bool) (enc cfg : MediaConfig) :
    ((MPPCommonConfig.InitConfig ct env ok enc cfg).1 = false →
      (MPPCommonConfig.InitConfig ct env ok enc cfg).2.1 = enc) ∧
    ((MPPCommonConfig.InitConfig ct env ok enc cfg).1 = true →
      (MPPCommonConfig.InitConfig ct env ok enc cfg).2.1.type = ConfigType.video) := by
  unfold MPPCommonConfig.InitConfig
  simp only []
  by_cases hc1 : ok = false
  · rw [if_pos hc1]
    simp
  · rw [if_neg hc1]
    by_cases hc2 : VALUE_SCOPE_FAILS cfg.vid_cfg.frame_rate 1 60
    · rw [if_pos hc2]
      simp
    · rw [if_neg hc2]
      by_cases hc3 : VALUE_SCOPE_FAILS cfg.vid_cfg.gop_size 0 0x7FFFFFFF
      · rw [if_pos hc3]
        simp
      · rw [if_neg hc3]
        by_cases hc4 : VALUE_SCOPE_FAILS cfg.vid_cfg.qp_max 8 51
        · rw [if_pos hc4]
          simp
        · rw [if_neg hc4]
          by_cases hc5 : VALUE_SCOPE_FAILS cfg.vid_cfg.qp_min 1 (VALUE_MIN cfg.vid_cfg.qp_max 48)
          · rw [if_pos hc5]
            simp
          · rw [if_neg hc5]
            by_cases hc6 : VALUE_SCOPE_FAILS cfg.vid_cfg.image_cfg.qp_init cfg.vid_cfg.qp_min cfg.vid_cfg.qp_max
            · rw [if_pos hc6]
              simp
            · rw [if_neg hc6]
              by_cases hc7 : VALUE_SCOPE_FAILS cfg.vid_cfg.qp_step 0 (cfg.vid_cfg.qp_max - cfg.vid_cfg.qp_min)
              · rw [if_pos hc7]
                simp
              · rw [if_neg hc7]
                by_cases hc8 : VALUE_SCOPE_FAILS cfg.vid_cfg.image_cfg.image_info.vir_width 1 8192
                · rw [if_pos hc8]
                  simp
                · rw [if_neg hc8]
                  by_cases hc9 : VALUE_SCOPE_FAILS cfg.vid_cfg.image_cfg.image_info.vir_height 1 8192
                  · rw [if_pos hc9]
                    simp
                  · rw [if_neg hc9]
                    by_cases hc10 : VALUE_SCOPE_FAILS cfg.vid_cfg.image_cfg.image_info.width 1 cfg.vid_cfg.image_cfg.image_info.vir_width
                    · rw [if_pos hc10]
                      simp
                    · rw [if_neg hc10]
                      by_cases hc11 : VALUE_SCOPE_FAILS cfg.vid_cfg.image_cfg.image_info.height 1 cfg.vid_cfg.image_cfg.image_info.vir_height
                      · rw [if_pos hc11]
                        simp
                      · rw [if_neg hc11]
                        by_cases hc12 : (0 < cfg.vid_cfg.max_i_qp ∨ 0 < cfg.vid_cfg.min_i_qp) ∧ (VALUE_SCOPE_FAILS cfg.vid_cfg.max_i_qp 8 51 ∨ VALUE_SCOPE_FAILS cfg.vid_cfg.min_i_qp 1 (VALUE_MIN cfg.vid_cfg.max_i_qp 48))
                        · rw [if_pos hc12]
                          simp
                        · rw [if_neg hc12]
                          by_cases hc13 : ConvertToMppPixFmt cfg.img_cfg.image_info.pix_fmt = -1
                          · rw [if_pos hc13]
                            simp
                          · rw [if_neg hc13]
                            by_cases hc14 : GetMPPRCMode cfg.vid_cfg.rc_mode = MppEncRcMode.butt
                            · rw [if_pos hc14]
                              simp
                            · rw [if_neg hc14]
                              rcases hm : CalcMppBpsWithMax (GetMPPRCMode cfg.vid_cfg.rc_mode) cfg.vid_cfg.bit_rate with _ | ⟨⟨bmax, bmin, btg⟩⟩
                              · simp only [hm]
                                simp
                              · simp only [hm]
                                exact MPPCommonConfig.initSubmit_cache ct env enc cfg.vid_cfg cfg.vid_cfg.image_cfg cfg.img_cfg.image_info (ConvertToMppPixFmt cfg.img_cfg.image_info.pix_fmt) (strideFor (ConvertToMppPixFmt cfg.img_cfg.image_info.pix_fmt) cfg.img_cfg.image_info.vir_width) (GetMPPRCMode cfg.vid_cfg.rc_mode) bmax bmin btg (max 1 (min cfg.vid_cfg.frame_rate 65535)) cfg.vid_cfg.gop_size

/-- Helper: cache discipline of the still-image `InitConfig`: the cached
configuration either stays unchanged or holds the committed image info; success
always commits; a quantization-range or pixel-format validation failure leaves
it unchanged, and so does a failure of either timeout-mode control call (the
cache is written only after both have succeeded). -/
theorem MPPMJPEGConfig.mjpegInitCfg_cache (env : HwEnv) (ok : Bool) (enc cfg : MediaConfig) :
    ((MPPMJPEGConfig.InitConfig env ok enc cfg).2.1 = enc ∨
      (MPPMJPEGConfig.InitConfig env ok enc cfg).2.1 =
        mjpegCommitInfo enc cfg.img_cfg.image_info) ∧
    ((MPPMJPEGConfig.InitConfig env ok enc cfg).1 = true →
      (MPPMJPEGConfig.InitConfig env ok enc cfg).2.1 =
        mjpegCommitInfo enc cfg.img_cfg.image_info) ∧
    (VALUE_SCOPE_FAILS cfg.img_cfg.qp_init 1 10 →
      (MPPMJPEGConfig.InitConfig env ok enc cfg).2.1 = enc) ∧
    (ConvertToMppPixFmt cfg.img_cfg.image_info.pix_fmt = -1 →
      (MPPMJPEGConfig.InitConfig env ok enc cfg).2.1 = enc) ∧
    ((encodeControl env HwState.start .setOutputTimeout).1 = true →
      (MPPMJPEGConfig.InitConfig env ok enc cfg).2.1 = enc) ∧
    ((encodeControl env (encodeControl env HwState.start .setOutputTimeout).2
        .setInputTimeout).1 = true →
      (MPPMJPEGConfig.InitConfig env ok enc cfg).2.1 = enc) := by
  unfold MPPMJPEGConfig.InitConfig
  simp only []
  split_ifs with h1 h2 h3 h4 h5 h6 h7 <;> simp_all

/-- C4 counterexample: for the still-image strategy, a failing parameter
submission (the third hardware call returns a nonzero status, after the two
successful timeout-mode calls) makes `InitConfig` return failure with the
cached configuration already mutated, refuting "the cached MediaConfig is left
unchanged whenever InitializeConfiguration returns failure". -/
theorem mjpegInit_submission_failure_mutates_cache :
    (MPPMJPEGConfig.InitConfig (envFailAt 2) true blankMediaConfig validJpegCfg).1 = false ∧
    (MPPMJPEGConfig.InitConfig (envFailAt 2) true blankMediaConfig validJpegCfg).2.1 ≠
      blankMediaConfig := by
  constructor
  · decide
  · decide

/-- C4 (amended): for the inter-frame variant every failure of `InitConfig`
leaves the cached MediaConfig unchanged and only success sets the `Video`
discriminant; for the still-image variant, parameter-validation failures
(quantization range, pixel format) and failures of either timeout-mode control
call leave the cache unchanged, and success commits the image info with the
`Image` discriminant — but the cache is written before parameter submission, so
after a submission-step failure it may already hold the committed image info. -/
theorem initConfig_cache_discipline (ct : MppCodingType) (env : HwEnv) (ok : Bool)
    (enc cfg : MediaConfig) :
    ((MPPCommonConfig.InitConfig ct env ok enc cfg).1 = false →
      (MPPCommonConfig.InitConfig ct env ok enc cfg).2.1 = enc) ∧
    ((MPPCommonConfig.InitConfig ct env ok enc cfg).1 = true →
      (MPPCommonConfig.InitConfig ct env ok enc cfg).2.1.type = ConfigType.video) ∧
    ((MPPMJPEGConfig.InitConfig env ok enc cfg).2.1 = enc ∨
      (MPPMJPEGConfig.InitConfig env ok enc cfg).2.1 =
        mjpegCommitInfo enc cfg.img_cfg.image_info) ∧
    ((MPPMJPEGConfig.InitConfig env ok enc cfg).1 = true →
      (MPPMJPEGConfig.InitConfig env ok enc cfg).2.1 =
        mjpegCommitInfo enc cfg.img_cfg.image_info) ∧
    (VALUE_SCOPE_FAILS cfg.img_cfg.qp_init 1 10 →
      (MPPMJPEGConfig.InitConfig env ok enc cfg).2.1 = enc) ∧
    (ConvertToMppPixFmt cfg.img_cfg.image_info.pix_fmt = -1 →
      (MPPMJPEGConfig.InitConfig env ok enc cfg).2.1 = enc) ∧
    ((encodeControl env HwState.start .setOutputTimeout).1 = true →
      (MPPMJPEGConfig.InitConfig env ok enc cfg).2.1 = enc) ∧
    ((encodeControl env (encodeControl env HwState.start .setOutputTimeout).2
        .setInputTimeout).1 = true →
      (MPPMJPEGConfig.InitConfig env ok enc cfg).2.1 = enc) :=
  ⟨(MPPCommonConfig.commonInitCfg_cache ct env ok enc cfg).1,
   (MPPCommonConfig.commonInitCfg_cache ct env ok enc cfg).2,
   (MPPMJPEGConfig.mjpegInitCfg_cache env ok enc cfg).1,
   (MPPMJPEGConfig.mjpegInitCfg_cache env ok enc cfg).2.1,
   (MPPMJPEGConfig.mjpegInitCfg_cache env ok enc cfg).2.2.1,
   (MPPMJPEGConfig.mjpegInitCfg_cache env ok enc cfg).2.2.2.1,
   (MPPMJPEGConfig.mjpegInitCfg_cache env ok enc cfg).2.2.2.2.1,
   (MPPMJPEGConfig.mjpegInitCfg_cache env ok enc cfg).2.2.2.2.2⟩

/-- C4 witness: the success clause applied at a concrete accepted video
configuration. -/
theorem initConfig_cache_discipline_witness :
    (MPPCommonConfig.InitConfig .avc envOk true blankMediaConfig validVideoCfg).2.1.type =
      ConfigType.video :=
  (initConfig_cache_discipline .avc envOk true blankMediaConfig validVideoCfg).2.1 (by decide)

/-- Helper: contract of the frame-rate branch itself. -/
theorem MPPCommonConfig.applyFrameRate_contract (env : HwEnv) (enc : MediaConfig)
    (val : ParameterBuffer) :
    ((val.size < 4 ∨ val.bytes 2 = 0 ∨ val.bytes 3 = 0 ∨ 60 < val.bytes 2) →
      (MPPCommonConfig.applyFrameRateChange env enc val).1 = false ∧
      (MPPCommonConfig.applyFrameRateChange env enc val).2.1 = enc) ∧
    ((val.bytes 0 = 0 ∧ val.bytes 1 = 0) →
      ∀ v, HwEvent.setS32 "rc:fps_in_num" v ∉
          (MPPCommonConfig.applyFrameRateChange env enc val).2.2.trace ∧
        HwEvent.setS32 "rc:fps_in_denorm" v ∉
          (MPPCommonConfig.applyFrameRateChange env enc val).2.2.trace) ∧
    ((MPPCommonConfig.applyFrameRateChange env enc val).1 = true →
      (MPPCommonConfig.applyFrameRateChange env enc val).2.1.vid_cfg.frame_rate =
        (val.bytes 2 : Int)) := by
  unfold MPPCommonConfig.applyFrameRateChange
  simp only []
  split_ifs with h1 h2 h3 h4 h5 <;>
    simp_all [setMany, setS32, setU32, hwCall, encodeControl, HwState.start]

/-- C5: for a frame-rate change on the inter-frame strategy: a payload shorter
than 4 bytes, a zero out-numerator or out-denominator, or an out-numerator
above 60 makes the call fail with the cached configuration (in particular its
frame_rate) unchanged; an all-zero input pair submits no input-rate parameter;
on success the cached frame_rate becomes the out-numerator. -/
theorem frameRateChange_contract (ct : MppCodingType) (env : HwEnv) (ok : Bool)
    (enc : MediaConfig) (change : Nat) (val : ParameterBuffer)
    (hbit : change &&& VideoEncoder.kFrameRateChange ≠ 0) :
    ((val.size < 4 ∨ val.bytes 2 = 0 ∨ val.bytes 3 = 0 ∨ 60 < val.bytes 2) →
      (MPPCommonConfig.CheckConfigChange ct env ok enc change val).1 = false ∧
      (MPPCommonConfig.CheckConfigChange ct env ok enc change val).2.1.vid_cfg.frame_rate =
        enc.vid_cfg.frame_rate) ∧
    ((val.bytes 0 = 0 ∧ val.bytes 1 = 0) →
      ∀ v, HwEvent.setS32 "rc:fps_in_num" v ∉
          (MPPCommonConfig.CheckConfigChange ct env ok enc change val).2.2.trace ∧
        HwEvent.setS32 "rc:fps_in_denorm" v ∉
          (MPPCommonConfig.CheckConfigChange ct env ok enc change val).2.2.trace) ∧
    ((MPPCommonConfig.CheckConfigChange ct env ok enc change val).1 = true →
      (MPPCommonConfig.CheckConfigChange ct env ok enc change val).2.1.vid_cfg.frame_rate =
        (val.bytes 2 : Int)) := by
  unfold MPPCommonConfig.CheckConfigChange
  by_cases hok : ok = false
  · rw [if_pos hok]
    simp [HwState.start]
  · rw [if_neg hok, if_pos hbit]
    refine ⟨fun hbad => ⟨((MPPCommonConfig.applyFrameRate_contract env enc val).1 hbad).1, ?_⟩,
      (MPPCommonConfig.applyFrameRate_contract env enc val).2.1,
      (MPPCommonConfig.applyFrameRate_contract env enc val).2.2⟩
    rw [((MPPCommonConfig.applyFrameRate_contract env enc val).1 hbad).2]

/-- C5 witness: a concrete accepted frame-rate change (out = 25/1) commits 25,
and a concrete malformed one (out-num = 0) fails with the cache unchanged. -/
theorem frameRateChange_contract_witness :
    (MPPCommonConfig.CheckConfigChange .avc envOk true validVideoCfg
      VideoEncoder.kFrameRateChange fpsBuf).2.1.vid_cfg.frame_rate = (fpsBuf.bytes 2 : Int) :=
  (frameRateChange_contract .avc envOk true validVideoCfg
    VideoEncoder.kFrameRateChange fpsBuf (by decide)).2.2 (by decide)

/-- C6: the failing input.  With payload bytes (in-num, in-den, out-num,
out-den) = (30, 2, 25, 1), the submitted frame-rate block assigns 30 — the
in-numerator — to BOTH the input numerator key and the input denominator key;
the in-denominator value 2 is never submitted.  `InitConfig` (line 282) and the
log statement at lines 431-432 show the denominator key was meant to receive
the in-denominator, so this is a defect of line 418 of the source. -/
theorem frameRate_in_denorm_receives_numerator :
    fpsBuf.bytes 0 = 30 ∧ fpsBuf.bytes 1 = 2 ∧
    HwEvent.setS32 "rc:fps_in_num" 30 ∈
      (MPPCommonConfig.CheckConfigChange .avc envOk true validVideoCfg
        VideoEncoder.kFrameRateChange fpsBuf).2.2.trace ∧
    HwEvent.setS32 "rc:fps_in_denorm" 30 ∈
      (MPPCommonConfig.CheckConfigChange .avc envOk true validVideoCfg
        VideoEncoder.kFrameRateChange fpsBuf).2.2.trace ∧
    HwEvent.setS32 "rc:fps_in_denorm" 2 ∉
      (MPPCommonConfig.CheckConfigChange .avc envOk true validVideoCfg
        VideoEncoder.kFrameRateChange fpsBuf).2.2.trace := by
  refine ⟨rfl, rfl, ?_, ?_, ?_⟩ <;> decide

/-- C7 (amended): the region-of-interest branch fails exactly when the payload
size is nonzero and smaller than one region record, leaving the cache unchanged
and submitting nothing; any other size (zero, or at least one record — whether
or not a whole multiple) succeeds and forwards `size / record-size` records,
the cache unchanged. -/
theorem roiChange_contract (ct : MppCodingType) (env : HwEnv) (enc : MediaConfig)
    (val : ParameterBuffer) :
    ((0 < val.size ∧ val.size < sizeof_EncROIRegion) →
      (MPPCommonConfig.CheckConfigChange ct env true enc VideoEncoder.kROICfgChange val).1 = false ∧
      (MPPCommonConfig.CheckConfigChange ct env true enc VideoEncoder.kROICfgChange val).2.1 = enc ∧
      (MPPCommonConfig.CheckConfigChange ct env true enc VideoEncoder.kROICfgChange val).2.2.trace = []) ∧
    ((val.size = 0 ∨ sizeof_EncROIRegion ≤ val.size) →
      (MPPCommonConfig.CheckConfigChange ct env true enc VideoEncoder.kROICfgChange val).1 = true ∧
      (MPPCommonConfig.CheckConfigChange ct env true enc VideoEncoder.kROICfgChange val).2.1 = enc ∧
      (MPPCommonConfig.CheckConfigChange ct env true enc VideoEncoder.kROICfgChange val).2.2.trace =
        [HwEvent.roiUpdate ((val.size / sizeof_EncROIRegion : Nat) : Int)]) := by
  unfold MPPCommonConfig.CheckConfigChange
  rw [if_neg (by decide), if_neg (by decide), if_neg (by decide), if_neg (by decide),
    if_neg (by decide), if_neg (by decide), if_neg (by decide), if_pos (by decide)]
  unfold MPPCommonConfig.applyRoiChange
  simp only []
  split_ifs with h1 <;>
    simp_all [hwCall, HwState.start, sizeof_EncROIRegion] <;> omega

/-- C7 counterexample: a 13-byte payload is nonzero and not a whole multiple of
the 12-byte record size, yet the region-of-interest change succeeds and
forwards one record, refuting "fails whenever the payload size is nonzero and
not a whole multiple of the size of one region record". -/
theorem roiChange_accepts_non_multiple :
    roiBuf13.size ≠ 0 ∧ ¬ (sizeof_EncROIRegion ∣ roiBuf13.size) ∧
    (MPPCommonConfig.CheckConfigChange .avc envOk true validVideoCfg
      VideoEncoder.kROICfgChange roiBuf13).1 = true ∧
    (MPPCommonConfig.CheckConfigChange .avc envOk true validVideoCfg
      VideoEncoder.kROICfgChange roiBuf13).2.2.trace = [HwEvent.roiUpdate 1] :=
  ⟨by decide, by decide, by decide, by decide⟩

/-- C7 witness: the amended acceptance clause at the concrete 13-byte payload. -/
theorem roiChange_contract_witness :
    (MPPCommonConfig.CheckConfigChange .avc envOk true validVideoCfg
      VideoEncoder.kROICfgChange roiBuf13).1 = true ∧
    (MPPCommonConfig.CheckConfigChange .avc envOk true validVideoCfg
      VideoEncoder.kROICfgChange roiBuf13).2.1 = validVideoCfg ∧
    (MPPCommonConfig.CheckConfigChange .avc envOk true validVideoCfg
      VideoEncoder.kROICfgChange roiBuf13).2.2.trace =
      [HwEvent.roiUpdate ((roiBuf13.size / sizeof_EncROIRegion : Nat) : Int)] :=
  (roiChange_contract .avc envOk validVideoCfg roiBuf13).2 (by decide)

/-- C8: the still-image strategy's `CheckConfigChange` succeeds only when the
quantization-change bit is set and the value lies in `[1,10]`, committing the
value as the cached `qp_init`; any request without that bit fails, and every
failure leaves the cached configuration unchanged. -/
theorem mjpegCheck_contract (env : HwEnv) (ok : Bool) (enc : MediaConfig)
    (change : Nat) (val : ParameterBuffer) :
    ((MPPMJPEGConfig.CheckConfigChange env ok enc change val).1 = true →
      change &&& VideoEncoder.kQPChange ≠ 0 ∧ 1 ≤ val.value ∧ val.value ≤ 10 ∧
      (MPPMJPEGConfig.CheckConfigChange env ok enc change val).2.1 =
        { enc with vid_cfg := { enc.vid_cfg with
            image_cfg := { enc.vid_cfg.image_cfg with qp_init := val.value } } }) ∧
    (change &&& VideoEncoder.kQPChange = 0 →
      (MPPMJPEGConfig.CheckConfigChange env ok enc change val).1 = false ∧
      (MPPMJPEGConfig.CheckConfigChange env ok enc change val).2.1 = enc) ∧
    ((MPPMJPEGConfig.CheckConfigChange env ok enc change val).1 = false →
      (MPPMJPEGConfig.CheckConfigChange env ok enc change val).2.1 = enc) := by
  unfold MPPMJPEGConfig.CheckConfigChange
  simp only []
  split_ifs with h1 h2 h3 h4 h5
  · simp_all
  · simp_all
  · simp_all
  · simp_all
  · unfold VALUE_SCOPE_FAILS at h3
    exact ⟨fun _ => ⟨h2, by omega, by omega, by simp⟩, fun hz => absurd hz h2, by simp⟩
  · simp_all

/-- C8 witness: a concrete quantization change with value 7 commits 7 as the
cached `qp_init`. -/
theorem mjpegCheck_contract_witness :
    VideoEncoder.kQPChange &&& VideoEncoder.kQPChange ≠ 0 ∧
    1 ≤ qpBuf.value ∧ qpBuf.value ≤ 10 ∧
    (MPPMJPEGConfig.CheckConfigChange envOk true validJpegCfg
      VideoEncoder.kQPChange qpBuf).2.1 =
      { validJpegCfg with vid_cfg := { validJpegCfg.vid_cfg with
          image_cfg := { validJpegCfg.vid_cfg.image_cfg with qp_init := qpBuf.value } } } :=
  (mjpegCheck_contract envOk true validJpegCfg VideoEncoder.kQPChange qpBuf).1 (by decide)

/-- C9: a change request whose bitmask includes the statistics-enable kind sets
the process-wide statistics flag from the payload value and returns success
without consulting the strategy (the result is independent of the strategy);
any other request is forwarded to the active strategy with the same bitmask and
the same payload, the flag unchanged. -/
theorem sessionDispatch_contract (st st2 : Nat → ParameterBuffer → Bool)
    (stats : Bool) (hasCfg : Bool) (change : Nat) (val : ParameterBuffer) :
    (change &&& VideoEncoder.kEnableStatistics ≠ 0 →
      MPPFinalEncoder.CheckConfigChange st stats hasCfg change val =
        (true, decide (val.value ≠ 0)) ∧
      MPPFinalEncoder.CheckConfigChange st stats hasCfg change val =
        MPPFinalEncoder.CheckConfigChange st2 stats hasCfg change val) ∧
    (change &&& VideoEncoder.kEnableStatistics = 0 → hasCfg = true →
      MPPFinalEncoder.CheckConfigChange st stats hasCfg change val =
        (st change val, stats)) := by
  unfold MPPFinalEncoder.CheckConfigChange
  refine ⟨fun hbit => ?_, fun hbit hcfg => ?_⟩
  · rw [if_pos hbit, if_pos hbit]
    exact ⟨rfl, rfl⟩
  · rw [if_neg (by simp [hbit]), if_neg (by simp [hcfg])]

/-- C9 witness: the statistics intercept at a concrete request, with the result
equal under two different strategies. -/
theorem sessionDispatch_contract_witness :
    MPPFinalEncoder.CheckConfigChange strategyTrue false true
      VideoEncoder.kEnableStatistics qpBuf = (true, decide (qpBuf.value ≠ 0)) ∧
    MPPFinalEncoder.CheckConfigChange strategyTrue false true
      VideoEncoder.kEnableStatistics qpBuf =
    MPPFinalEncoder.CheckConfigChange strategyFalse false true
      VideoEncoder.kEnableStatistics qpBuf :=
  (sessionDispatch_contract strategyTrue strategyFalse false true
    VideoEncoder.kEnableStatistics qpBuf).1 (by decide)

/-- C10: when the hardware configuration handle is missing (the `enc_cfg`
creation failed at construction), every `InitConfig` and `CheckConfigChange`
call on either strategy variant returns failure immediately, with the cached
configuration unchanged and an empty hardware trace. -/
theorem nullHandle_noop (ct : MppCodingType) (env : HwEnv) (enc cfg : MediaConfig)
    (change : Nat) (val : ParameterBuffer) :
    MPPMJPEGConfig.InitConfig env false enc cfg = (false, enc, HwState.start) ∧
    MPPCommonConfig.InitConfig ct env false enc cfg = (false, enc, HwState.start) ∧
    MPPMJPEGConfig.CheckConfigChange env false enc change val = (false, enc, HwState.start) ∧
    MPPCommonConfig.CheckConfigChange ct env false enc change val = (false, enc, HwState.start) ∧
    HwState.start.trace = [] :=
  ⟨rfl, rfl, rfl, rfl, rfl⟩

end RkMedia
